import Mathlib

/-!
Verification of the ColorDir directory-listing utility (src/c.cpp, src/hdir.h)
against its natural-language specification.

The C++ program is shallowly embedded: pure helpers become Lean functions on
Nat / String / List, the filesystem is an explicit tree, and the CLI driver is
a pure function from an environment and an argument list to a program result.
Machine integers: the only place a C++ integral conversion matters is the
comparison in listDirectoryContents, where a signed int is converted to the
unsigned 64-bit size_t; that conversion is modelled explicitly with mod 2^64.
The C++ double arithmetic in formatSize divides by powers of 1024 (powers of
two), which is exact in binary floating point for every input used in a
theorem below; it is modelled with exact rational arithmetic scaled to the six
decimal places that std::to_string(double) produces.
-/

namespace ColorDir

/-! ### Basic string helpers (modelling std::string / cctype operations) -/

/-- ASCII tolower of one character, as the C tolower in the C locale
(used via std::transform in c.cpp). -/
def asciiToLower (c : Char) : Char :=
  if 'A' ≤ c ∧ c ≤ 'Z' then Char.ofNat (c.toNat + 32) else c

/-- Lowercase an entire string byte-wise, modelling the toLower helper of
c.cpp (std::transform with ::tolower). -/
def asciiLowerStr (s : String) : String :=
  String.mk (s.toList.map asciiToLower)

/-- Does the character list start with the given prefix list. -/
def listStartsWith : List Char → List Char → Bool
  | [], _ => true
  | _ :: _, [] => false
  | a :: as, b :: bs => a = b && listStartsWith as bs

/-- Does the needle occur as a contiguous substring of the haystack. -/
def subOccursIn (needle : List Char) : List Char → Bool
  | [] => listStartsWith needle []
  | c :: rest => listStartsWith needle (c :: rest) || subOccursIn needle rest

/-- String-level substring test. -/
def strContainsSub (hay needle : String) : Bool :=
  subOccursIn needle.toList hay.toList

/-! ### File categories (enum class FileType in hdir.h, declaration order) -/

inductive FileType where
  | Programming
  | Text
  | Video
  | Picture
  | Hidden
  | Executable
  | Compressed
  | Other
deriving DecidableEq, Repr

/-- The ordinal value of a FileType, as the underlying value of the C++
enum class (declaration order in hdir.h lines 33-42). -/
def FileType.ordVal : FileType → Nat
  | .Programming => 0
  | .Text => 1
  | .Video => 2
  | .Picture => 3
  | .Hidden => 4
  | .Executable => 5
  | .Compressed => 6
  | .Other => 7

/-! ### Extension tables (categorizeFile in c.cpp, lines 56-93) -/

def programmingExtensions : List String :=
  [".cpp", ".h", ".py", ".java", ".cs", ".js", ".php", ".hs", ".rs", ".clj",
   ".sh", ".pl", ".lua", ".erl", ".ex", ".exs", ".scala", ".d", ".go", ".nim",
   ".lisp", ".cl", ".f90", ".f95", ".vhdl", ".verilog", ".coffee", ".racket",
   ".dart", ".tcl", ".hlsl"]

def textExtensions : List String :=
  [".txt", ".md", ".rtf", ".log", ".ini", ".conf", ".config", ".nfo",
   ".readme", ".html", ".htm", ".bak", ".asc", ".diff", ".lst", ".srt",
   ".mdown", ".text", ".out", ".memo", ".patch", ".logfile", ".po", ".dat",
   ".env", ".sh", ".doc"]

def videoExtensions : List String :=
  [".mp4", ".mkv", ".avi", ".mov", ".wmv", ".flv", ".webm", ".mpeg", ".mpg",
   ".m4v", ".3gp", ".ogv", ".vob", ".ts", ".m2ts", ".divx", ".rm", ".rmvb",
   ".asf", ".swf", ".mxf", ".hevc", ".avchd", ".mts", ".ogm", ".amv", ".drc",
   ".yuv", ".h264", ".h265"]

def pictureExtensions : List String :=
  [".jpg", ".jpeg", ".png", ".gif", ".bmp", ".tiff", ".tif", ".webp", ".svg",
   ".ico", ".raw", ".xpm", ".ppm", ".pgm", ".pbm", ".heic", ".heif"]

def compressedExtensions : List String :=
  [".zip", ".tar", ".gz", ".bz2", ".xz", ".7z", ".rar", ".zst", ".lz4",
   ".tar.gz", ".tar.bz2", ".tar.xz", ".tgz", ".tbz2", ".txz", ".tar.zst",
   ".tzst", ".tar.lz4", ".tlz4", ".jar", ".war", ".ear", ".cab", ".deb",
   ".rpm", ".apk", ".dmg", ".iso", ".img", ".appimage"]

/-- std::filesystem::path::extension on a filename: the suffix starting at
the last dot, except that "." and ".." have no extension and a filename whose
only dot is its first character (a dotfile such as ".sh") has none either. -/
def pathExtension (name : String) : String :=
  if name = "." || name = ".." then ""
  else
    let cs := name.toList
    let suffix := (cs.reverse.takeWhile (fun c => c ≠ '.')).reverse
    if suffix.length + 1 ≤ cs.length then
      if suffix.length + 1 = cs.length then ""
      else String.mk ('.' :: suffix)
    else ""

/-! ### Directory entries (the attributes of fs::directory_entry that the
program reads) -/

structure DirEntry where
  name : String
  isDirectory : Bool
  isRegular : Bool
  ownerExec : Bool
  size : Nat
deriving DecidableEq, Repr

/-- categorizeFile from c.cpp lines 54-114: lowercase the extension, then for
regular files consult the five extension tables in their fixed order, then the
owner-execute bit; everything else is Other. -/
def categorizeFile (e : DirEntry) : FileType :=
  let extension := asciiLowerStr (pathExtension e.name)
  if e.isRegular then
    if programmingExtensions.contains extension then .Programming
    else if textExtensions.contains extension then .Text
    else if videoExtensions.contains extension then .Video
    else if pictureExtensions.contains extension then .Picture
    else if compressedExtensions.contains extension then .Compressed
    else if e.ownerExec then .Executable
    else .Other
  else .Other

/-! ### formatSize (hdir.h lines 79-100)

The C++ loop divides a double by 1024 while it stays at or above 1024 and
counts the divisions.  Division of a double by 1024 is an exponent shift and
is exact, and the loop condition compares against a power of two, so for
inputs that are exactly representable (in particular every input appearing in
a theorem below) the iteration count equals the count obtained with exact
arithmetic; floor division by 1024 yields the same count because
floor(x / 1024) is at least 1024 exactly when x is. -/

/-- Number of iterations of the reduction loop in formatSize: how many times
the value is divided by 1024 until it is below 1024. -/
def countDivs (n : Nat) : Nat :=
  if h : 1024 ≤ n then countDivs (n / 1024) + 1 else 0
termination_by n
decreasing_by
  exact Nat.div_lt_self (Nat.lt_of_lt_of_le (by norm_num) h) (by norm_num)

/-- The baseUnits array of formatSize. -/
def baseUnits : List String :=
  ["KB", "MB", "GB", "TB", "PB", "EB", "ZB", "YB"]

/-- Unit label selection of formatSize: the baseUnits entry while
unitIndex < 7, otherwise the synthesized character 'Z' + (unitIndex - 6)
followed by "B". -/
def unitLabelFor (unitIndex : Nat) : String :=
  if unitIndex < 7 then baseUnits.getD unitIndex ""
  else String.mk [Char.ofNat ('Z'.toNat + (unitIndex - 6))] ++ "B"

/-- Left-pad a digit string with zeros to six characters (the fractional part
of the percent-f rendering used by std::to_string on a double). -/
def padZeros6 (s : String) : String :=
  String.mk (List.replicate (6 - s.length) '0') ++ s

/-- std::to_string applied to the reduced value size / 1024^k, rendered with
six decimal places; modelled as exact rational arithmetic scaled by 10^6,
rounding half away from zero as printf does (no input used below is a tie
or is affected by binary rounding of the double). -/
def reducedSizeString (size k : Nat) : String :=
  let den := 1024 ^ k
  let scaled := (size * 1000000 + den / 2) / den
  Nat.repr (scaled / 1000000) ++ "." ++ padZeros6 (Nat.repr (scaled % 1000000))

/-- formatSize from hdir.h lines 79-100. -/
def formatSize (size : Nat) : String :=
  if size < 1024 then Nat.repr size ++ " B"
  else
    let k := countDivs size
    (reducedSizeString size k).take 5 ++ " " ++ unitLabelFor (k - 1)

theorem countDivs_lt {n : Nat} (h : n < 1024) : countDivs n = 0 := by
  rw [countDivs]; simp [Nat.not_le.mpr h]

theorem countDivs_step {n : Nat} (h : 1024 ≤ n) :
    countDivs n = countDivs (n / 1024) + 1 := by
  rw [countDivs]; simp [h]

/-! ### fnmatch (POSIX shell glob, as called with FNM_PATHNAME in
listDirectoryContents).  fnmatch is a libc collaborator, not part of src/;
it is modelled from its documented semantics: star and question mark match
any characters except the path separator, and a bracket expression matches
one character from a set, with a leading bang or caret negating the set and
a-b denoting a range; an unterminated bracket is a literal bracket. -/

/-- Split a bracket-expression body at the first closing bracket, returning
the items before it and the pattern rest after it; none when unterminated. -/
def splitBracket : List Char → Option (List Char × List Char)
  | [] => none
  | c :: rest =>
    if c = ']' then some ([], rest)
    else (splitBracket rest).map (fun p => (c :: p.1, p.2))

theorem splitBracket_length :
    ∀ {l items rest : List Char}, splitBracket l = some (items, rest) →
      rest.length < l.length := by
  intro l
  induction l with
  | nil => intro items rest h; simp [splitBracket] at h
  | cons c tl ih =>
    intro items rest h
    by_cases hc : c = ']'
    · simp [splitBracket, hc] at h
      simp [← h.2]
    · simp only [splitBracket, if_neg hc] at h
      cases hs : splitBracket tl with
      | none => rw [hs] at h; simp at h
      | some p =>
        rw [hs] at h
        simp at h
        have hlt := ih (show splitBracket tl = some (p.1, p.2) by rw [hs])
        obtain ⟨h1, h2⟩ := h
        subst h2
        simp at hlt
        simp only [List.length_cons]
        omega

/-- Parse the optional negation marker and the body of a bracket expression
directly following an opening bracket. -/
def bracketTail (ps : List Char) : Option (Bool × List Char × List Char) :=
  match ps with
  | [] => none
  | c :: ps2 =>
    if c = '!' || c = '^' then (splitBracket ps2).map (fun p => (true, p.1, p.2))
    else (splitBracket (c :: ps2)).map (fun p => (false, p.1, p.2))

theorem bracketTail_length {ps : List Char} {neg : Bool} {items rest : List Char}
    (h : bracketTail ps = some (neg, items, rest)) : rest.length < ps.length := by
  cases ps with
  | nil => simp [bracketTail] at h
  | cons c ps2 =>
    simp only [bracketTail] at h
    by_cases hneg : (c = '!' || c = '^') = true
    · rw [if_pos hneg] at h
      cases hs : splitBracket ps2 with
      | none => rw [hs] at h; simp at h
      | some p =>
        rw [hs] at h
        simp at h
        have hlt := splitBracket_length
          (show splitBracket ps2 = some (p.1, p.2) by rw [hs])
        obtain ⟨h1, h2⟩ := h
        subst h2
        simp at hlt
        simp only [List.length_cons]
        omega
    · rw [if_neg hneg] at h
      cases hs : splitBracket (c :: ps2) with
      | none => rw [hs] at h; simp at h
      | some p =>
        rw [hs] at h
        simp at h
        have hlt := splitBracket_length
          (show splitBracket (c :: ps2) = some (p.1, p.2) by rw [hs])
        obtain ⟨h1, h2⟩ := h
        subst h2
        simp at hlt
        simp only [List.length_cons] at hlt ⊢
        omega

/-- Does one character match the item list of a bracket expression
(plain items and a-b ranges). -/
def bracketSetMatch (c : Char) : List Char → Bool
  | lo :: '-' :: hi :: rest => (lo ≤ c && c ≤ hi) || bracketSetMatch c rest
  | x :: rest => c = x || bracketSetMatch c rest
  | [] => false

/-- Glob matching of a pattern against a string, both as character lists. -/
def globMatch : List Char → List Char → Bool
  | [], [] => true
  | [], _ :: _ => false
  | '*' :: ps, s =>
    globMatch ps s ||
      (match s with
       | [] => false
       | c :: rest => c ≠ '/' && globMatch ('*' :: ps) rest)
  | '?' :: ps, s =>
    match s with
    | [] => false
    | c :: rest => c ≠ '/' && globMatch ps rest
  | '[' :: ps, s =>
    match s with
    | [] => false
    | c :: rest =>
      match h : bracketTail ps with
      | some (neg, items, rest') =>
        c ≠ '/' && (neg != bracketSetMatch c items) && globMatch rest' rest
      | none => c = '[' && globMatch ps rest
  | p :: ps, s =>
    match s with
    | [] => false
    | c :: rest => c = p && globMatch ps rest
termination_by p s => p.length + s.length
decreasing_by
  · simp_arith
  · simp_arith
  · simp_arith
  · have := bracketTail_length h
    simp_arith
    omega
  · simp_arith
  · simp_arith

/-- The pattern filter applied by listDirectoryContents (c.cpp line 285):
an empty pattern admits everything, otherwise fnmatch must succeed. -/
def entryMatches (pattern name : String) : Bool :=
  pattern.isEmpty || globMatch pattern.toList name.toList

/-! ### Multi-column rendering (displayMultiColumn, c.cpp lines 220-272)

The function is modelled generically over the entry type and returns the
row-major partition of the entries that the two nested loops print: row r
consists of the entries with index in the interval from r times numColumns
up to but excluding (r+1) times numColumns, clipped at numEntries.  When
numColumns is zero (terminal width below 18) the C++ numRows expression
divides by zero, which is undefined behaviour; that case is modelled as
none. -/

/-- numColumns of displayMultiColumn: maxWidth / (columnWidth + 1) with the
fixed columnWidth 17. -/
def numColumnsOf (maxWidth : Nat) : Nat :=
  maxWidth / (17 + 1)

/-- The row-major grid layout of displayMultiColumn: none exactly when the
C++ code would divide by zero. -/
def displayMultiColumn {α : Type} (entries : List α) (maxWidth : Nat) :
    Option (List (List α)) :=
  let numColumns := numColumnsOf maxWidth
  if numColumns = 0 then none
  else
    let numRows := (entries.length + numColumns - 1) / numColumns
    some ((List.range numRows).map
      (fun row => ((entries.drop (row * numColumns)).take numColumns)))

/-! ### The layout decision of listDirectoryContents (c.cpp line 325)

The C++ condition is
  not forceList, and then forceWide or allEntries.size() > screenHeight - 3.
allEntries.size() is the unsigned 64-bit size_t, screenHeight - 3 is a
signed int, and the comparison converts the int to size_t: for screenHeight
below 3 the right-hand side wraps to a huge value.  The conversion is
modelled with mod 2^64. -/

/-- Conversion of a C++ int value to size_t (unsigned 64-bit). -/
def intToSizeT (i : Int) : Nat :=
  (i % (2 ^ 64 : Int)).toNat

/-- The size comparison of the layout condition, at C++ types. -/
def entryCountExceeds (n screenHeight : Nat) : Bool :=
  decide (n > intToSizeT ((screenHeight : Int) - 3))

/-- The full layout condition of c.cpp line 325: multi-column display is
used exactly when this is true. -/
def useMultiColumnCond (forceList forceWide : Bool) (n screenHeight : Nat) :
    Bool :=
  !forceList && (forceWide || entryCountExceeds n screenHeight)

/-- The layout condition as the specification words it: wide if force_wide
is set, or if force_list is not set and the entry count exceeds
screenHeight - 3.  Stated only to be compared against the condition
implemented in the source. -/
def claimedMultiColumnCond (forceList forceWide : Bool) (n screenHeight : Nat) :
    Bool :=
  forceWide || (!forceList && entryCountExceeds n screenHeight)

/-! ### The filesystem model and the directory lister
(listDirectoryContents, c.cpp lines 275-341)

A filesystem subtree is an entry together with the children that a
directory_iterator on it would yield (in iteration order); for non-directory
entries the child list is empty. -/

inductive FSTree where
  | node (entry : DirEntry) (children : List FSTree)

def FSTree.entry : FSTree → DirEntry
  | .node e _ => e

def FSTree.children : FSTree → List FSTree
  | .node _ cs => cs

/-- Sum of the sizes of all regular files in a subtree, the entry itself
included. -/
def subtreeFileSizes : FSTree → Nat
  | .node e cs =>
    (if e.isRegular then e.size else 0) +
      (cs.attach.map (fun c => subtreeFileSizes c.1)).sum
decreasing_by
  have := List.sizeOf_lt_of_mem c.2
  simp
  omega

/-- calculateDirectorySize from c.cpp lines 140-148: the recursive directory
iterator visits everything strictly below the given path and sums the sizes
of the regular files. -/
def calculateDirectorySize (t : FSTree) : Nat :=
  (t.children.map subtreeFileSizes).sum

/-- The comparator used for the directories vector (c.cpp lines 305-307):
case-insensitive lexicographic on the filename.  std::sort with the strict
comparator produces a sequence that is pairwise nondecreasing in this key
(the relative order of entries with equal keys is unspecified in C++;
mergeSort realizes one admissible order). -/
def dirLE (a b : FSTree) : Bool :=
  decide (asciiLowerStr a.entry.name ≤ asciiLowerStr b.entry.name)

/-- The sort key of the files comparator (c.cpp lines 310-317): category
ordinal first, then the case-insensitive name. -/
def fileKey (t : FSTree) : Lex (Nat × String) :=
  toLex ((categorizeFile t.entry).ordVal, asciiLowerStr t.entry.name)

/-- The comparator used for the files vector. -/
def fileLE (a b : FSTree) : Bool :=
  decide (fileKey a ≤ fileKey b)

/-- Sorting of one directory level: the directories vector sorted by name,
followed by the files vector sorted by category then name (c.cpp lines
304-322, the concatenation of lines 320-322). -/
def sortLevel (matched : List FSTree) : List FSTree :=
  (matched.filter (fun c => c.entry.isDirectory)).mergeSort dirLE ++
    (matched.filter (fun c => !c.entry.isDirectory)).mergeSort fileLE

/-- One observable output item of the lister.  A detail line carries the
fields printEntry prints that later claims inspect: the name, whether the
entry is a directory, the size printed for a regular file, and the
"(total)" size printed for a directory (none when not printed).  A wideGrid
event carries the row-major layout of displayMultiColumn (names only; the
truncation of names longer than 15 characters to 14 plus a marker is a
presentation detail not modelled).  A header event is the path line printed
before a recursive sublisting. -/
inductive OutEvent where
  | detail (name : String) (isDir : Bool) (fileSize : Option Nat)
      (dirTotal : Option Nat)
  | wideGrid (rows : Option (List (List String)))
  | header (path : String)
deriving DecidableEq, Repr

/-- The counters threaded by reference through listDirectoryContents. -/
structure ListStats where
  files : Nat
  dirs : Nat
  sizeShown : Nat
deriving DecidableEq, Repr

/-- listDirectoryContents from c.cpp lines 275-341, as a pure function from
the subtree at the listed path to the final counter increments and the
ordered output events.  screenWidth is the terminal width that the
displayMultiColumn call would obtain from its own ioctl. -/
def lister (t : FSTree) (pattern : String)
    (recursive showTotal forceList forceWide : Bool)
    (screenHeight screenWidth : Nat) (path : String) :
    ListStats × List OutEvent :=
  match t with
  | .node _ children =>
    let matched := children.filter (fun c => entryMatches pattern c.entry.name)
    let dirs := matched.filter (fun c => c.entry.isDirectory)
    let files := matched.filter (fun c => !c.entry.isDirectory)
    let levelSize := (files.map (fun c => c.entry.size)).sum +
      (if showTotal && !recursive then (dirs.map calculateDirectorySize).sum
       else 0)
    let sortedDirs := dirs.mergeSort dirLE
    let allEntries := sortedDirs ++ files.mergeSort fileLE
    let levelEvents :=
      if useMultiColumnCond forceList forceWide allEntries.length screenHeight
      then
        [OutEvent.wideGrid
          (displayMultiColumn (allEntries.map (fun c => c.entry.name))
            screenWidth)]
      else
        allEntries.map (fun c =>
          OutEvent.detail c.entry.name c.entry.isDirectory
            (if c.entry.isRegular then some c.entry.size else none)
            (if c.entry.isDirectory && (showTotal && !recursive)
             then some (calculateDirectorySize c) else none))
    let recResults :=
      if recursive then
        sortedDirs.attach.map (fun d =>
          let sub := lister d.1 pattern recursive showTotal forceList
            forceWide screenHeight screenWidth
            (path ++ "/" ++ d.1.entry.name)
          (sub.1, OutEvent.header (path ++ "/" ++ d.1.entry.name) :: sub.2))
      else []
    ({ files := files.length + (recResults.map (fun r => r.1.files)).sum,
       dirs := dirs.length + (recResults.map (fun r => r.1.dirs)).sum,
       sizeShown := levelSize + (recResults.map (fun r => r.1.sizeShown)).sum },
     levelEvents ++ (recResults.map (fun r => r.2)).flatten)
termination_by sizeOf t
decreasing_by
  rename_i cs hrec
  have hmem : d.1 ∈ cs := by
    have h1 := d.2
    rw [List.mem_mergeSort] at h1
    exact List.mem_of_mem_filter (List.mem_of_mem_filter h1)
  have := List.sizeOf_lt_of_mem hmem
  simp
  omega

/-! ### Specification-side definitions used to state claims about the
lister (these follow the wording of the spec, to be compared with the
source-derived definitions above) -/

/-- The sum of the sizes of the files the traversal itself visits and
admits: matched files of the level, plus, when recursing, the same sum of
every matched subdirectory.  No directory totals are included. -/
def visitedFilesSum (t : FSTree) (pattern : String) (recursive : Bool) :
    Nat :=
  match t with
  | .node _ cs =>
    let matched := cs.filter (fun c => entryMatches pattern c.entry.name)
    ((matched.filter (fun c => !c.entry.isDirectory)).map
        (fun c => c.entry.size)).sum +
      (if recursive then
        ((matched.filter (fun c => c.entry.isDirectory)).attach.map
          (fun c => visitedFilesSum c.1 pattern recursive)).sum
       else 0)
termination_by sizeOf t
decreasing_by
  rename_i cs hrec
  have hmem : c.1 ∈ cs :=
    List.mem_of_mem_filter (List.mem_of_mem_filter c.2)
  have := List.sizeOf_lt_of_mem hmem
  simp
  omega

/-- The sum of the recursive sizes of the matched directory children of one
level. -/
def matchedDirCalcSum (t : FSTree) (pattern : String) : Nat :=
  (((t.children.filter (fun c => entryMatches pattern c.entry.name)).filter
      (fun c => c.entry.isDirectory)).map calculateDirectorySize).sum

/-- The order the specification claims for one rendered directory level:
directories before files, directories by case-insensitive name, files by
category ordinal and then case-insensitive name. -/
def renderLE (a b : FSTree) : Prop :=
  (a.entry.isDirectory = true ∧ b.entry.isDirectory = false) ∨
  (a.entry.isDirectory = true ∧ b.entry.isDirectory = true ∧
    asciiLowerStr a.entry.name ≤ asciiLowerStr b.entry.name) ∨
  (a.entry.isDirectory = false ∧ b.entry.isDirectory = false ∧
    ((categorizeFile a.entry).ordVal < (categorizeFile b.entry).ordVal ∨
     ((categorizeFile a.entry).ordVal = (categorizeFile b.entry).ordVal ∧
       asciiLowerStr a.entry.name ≤ asciiLowerStr b.entry.name)))

/-! ### CLI driver (parseTargets, showError, main; c.cpp lines 343-433)

The process environment is a record: which paths pass the
directoryExists check, the subtree a listing of a path sees, and the raw
ioctl window size (0 meaning detection failed). -/

structure Env where
  dirExists : String → Bool
  tree : String → FSTree
  wsRow : Nat
  wsCol : Nat

/-- Terminal height with the fallback of main (c.cpp line 400). -/
def screenHeightOf (env : Env) : Nat :=
  if env.wsRow > 0 then env.wsRow else 24

/-- Terminal width with the fallback of displayMultiColumn (line 224). -/
def screenWidthOf (env : Env) : Nat :=
  if env.wsCol > 0 then env.wsCol else 80

/-- The twelve flag spellings recognized by parseTargets (lines 371-376). -/
def knownFlags : List String :=
  ["-r", "--recursive", "-t", "--total", "-l", "--list",
   "-w", "--wide", "-p", "--pause", "-h", "--help"]

/-- Does an argument contain a wildcard character (line 378): the find
calls of the source are character searches over the byte string. -/
def hasWildcard (s : String) : Bool :=
  s.toList.contains '*' || s.toList.contains '?'

/-- The mutable parse state of parseTargets. -/
structure ParseSt where
  dir : String
  pattern : String
  flags : List String
deriving DecidableEq, Repr

def initParseSt : ParseSt :=
  { dir := ".", pattern := "*", flags := [] }

/-- Processing of one argument by the loop of parseTargets (lines 366-387):
a leading dash selects the flag branch, then a wildcard selects the pattern
slot, otherwise the directory slot; showError is an error result. -/
def stepArg (st : ParseSt) (arg : String) : Except String ParseSt :=
  if arg.take 1 = "-" then
    if knownFlags.contains arg then .ok { st with flags := st.flags ++ [arg] }
    else .error ("Unknown flag: " ++ arg)
  else if hasWildcard arg then
    if st.pattern = "*" then .ok { st with pattern := arg }
    else .error "Multiple patterns are not allowed."
  else
    if st.dir = "." then .ok { st with dir := arg }
    else .error "Multiple directories are not allowed."

def parseLoop : ParseSt → List String → Except String ParseSt
  | st, [] => .ok st
  | st, a :: rest =>
    match stepArg st a with
    | .ok st2 => parseLoop st2 rest
    | .error m => .error m

/-- parseTargets (lines 357-393).  With no arguments it returns the
defaults without validating them (the early return on argc == 1);
otherwise the directory is validated to exist after the loop. -/
def parseTargets (env : Env) (args : List String) : Except String ParseSt :=
  if args = [] then .ok initParseSt
  else
    match parseLoop initParseSt args with
    | .error m => .error m
    | .ok st =>
      if env.dirExists st.dir then .ok st
      else .error ("Directory does not exist: " ++ st.dir)

/-- The observable result of one program invocation: a usage error (exit
status 1) with its message, the help screen (exit 0), or a completed
listing (exit 0) with its events and final counters. -/
inductive ProgramResult where
  | usageError (msg : String)
  | helpShown
  | ran (events : List OutEvent) (stats : ListStats)
deriving DecidableEq, Repr

def exitCodeOf : ProgramResult → Nat
  | .usageError _ => 1
  | .helpShown => 0
  | .ran _ _ => 0

/-- The line printed by showError (lines 344-349): the prefix
"Error: " in red, then the message and hint in the default color. -/
def errorOutput (msg : String) : String :=
  "\x1b[31m" ++ "Error: " ++ "\x1b[0m" ++ msg ++ ". Try: c -h" ++ "\n"

/-- The text printed by showAboutScreen (hdir.h lines 103-145). -/
def aboutText : String :=
  "\x1b[0;31m" ++
  "  ____      _            ____  _      _ \n" ++
  "\x1b[0;33m" ++
  " / ___|___ | | ___  _ __|  _ \\(_)_ __| |\n" ++
  "\x1b[0;32m" ++
  "| |   / _ \\| |/ _ \\| \x27__| | | | | \x27__| |\n" ++
  "\x1b[0;36m" ++
  "| |__| (_) | | (_) | |  | |_| | | |  |_|\n" ++
  "\x1b[1;35m" ++
  " \\____\\___/|_|\\___/|_|  |____/|_|_|  (_)\n" ++
  "\x1b[1;34m" ++
  "           !!About ColorDir. v. beta 0.3\n" ++
  "\x1b[0;36m" ++
  "This program lists directory contents with color coding.\n" ++
  "History:\n" ++
  "About 30 years ago, I discovered HDIR, a simple tool that brought color to my directory listings in DOS.\n" ++
  "I loved it then, and today, I set out to create a tribute to it: ColorDir.\n" ++
  "Not as a replacement for ls and its deeper functionalities,\n" ++
  "but as both a nostalgic homage and an aesthetically pleasing way to view files, wrapped in the colors of the past.\n" ++
  "Best regards 💌 endre@neset.love\n" ++
  "\n" ++
  " -l, --list       Force list view.\n" ++
  " -w, --wide       Force columns view.\n" ++
  " -t, --total      Display total size of directories, and subdirectories.\n" ++
  " -r, --recursive  Recursive listing.\n" ++
  " -p, --pause      Pause after each screen of output.\n" ++
  " -h, --help       Display this screen.\n" ++
  "\n" ++
  "Usage: c [flags] [directory] [pattern, must be inside quotes \"\" and must contain at least one * or ?]\n" ++
  "Examples:\n" ++
  "1. List all files in the current directory (default):       c\n" ++
  "2. List all files recursively with detailed listing:        c -r -l\n" ++
  "3. List files in wide format, recursively:                  c -r -w\n" ++
  "4. List all .txt files recursively:                         c -r \"*.txt\"\n" ++
  "5. List .txt files in /home/user/docs directory:            c /home/user/docs \"*.txt\"\n" ++
  "6. List .log files in /var/log directory:                   c /var/log \"*.log\"\n" ++
  "7. List files in /usr, paused for viewing, recursively:     c -p -r /usr\n" ++
  "8. List .config files in /etc directory recursively:        c -r /etc \"*.config\"\n" ++
  "9. List all files containing an x:                          c  \"*[x]*\"\n" ++
  "10. List files that do not contain a number:                c \"*[!0-9]*\"\n" ++
  "\x1b[0m"

/-- The output text of a program result.  The rendered listing of a
completed run is modelled structurally by its OutEvent list, so its flat
text is left empty here; no claim inspects it. -/
def outputOf : ProgramResult → String
  | .usageError m => errorOutput m
  | .helpShown => aboutText
  | .ran _ _ => ""

/-- The tail of main after parsing (c.cpp lines 408-431): decode the flag
list in order, short-circuiting to the about screen on a help flag, then
run the listing.  The screenPause flag is decoded like the others. -/
def runListing (env : Env) (dir pattern : String)
    (recursive showTotal forceList forceWide screenPause : Bool) :
    ProgramResult :=
  let res := lister (env.tree dir) pattern recursive showTotal forceList
    forceWide (screenHeightOf env) (screenWidthOf env) dir
  .ran res.2 res.1

def flagsLoop (env : Env) (dir pattern : String)
    (recursive showTotal forceList forceWide screenPause : Bool) :
    List String → ProgramResult
  | [] =>
    runListing env dir pattern recursive showTotal forceList forceWide
      screenPause
  | f :: rest =>
    if f = "-r" || f = "--recursive" then
      flagsLoop env dir pattern true showTotal forceList forceWide
        screenPause rest
    else if f = "-t" || f = "--total" then
      flagsLoop env dir pattern recursive true forceList forceWide
        screenPause rest
    else if f = "-l" || f = "--list" then
      flagsLoop env dir pattern recursive showTotal true forceWide
        screenPause rest
    else if f = "-w" || f = "--wide" then
      flagsLoop env dir pattern recursive showTotal forceList true
        screenPause rest
    else if f = "-p" || f = "--pause" then
      flagsLoop env dir pattern recursive showTotal forceList forceWide
        true rest
    else if f = "-h" || f = "--help" then ProgramResult.helpShown
    else
      flagsLoop env dir pattern recursive showTotal forceList forceWide
        screenPause rest

/-- One full program invocation (main, c.cpp lines 396-433). -/
def programOutcome (env : Env) (args : List String) : ProgramResult :=
  match parseTargets env args with
  | .error m => .usageError m
  | .ok st => flagsLoop env st.dir st.pattern false false false false false
      st.flags

/-- A placeholder directory entry for environments whose concrete content
does not matter to a statement. -/
def emptyDirEntry : DirEntry :=
  { name := "", isDirectory := true, isRegular := false, ownerExec := false,
    size := 0 }

/-- A concrete environment for closed statements: every path exists and
every directory is empty, on a 24 by 80 terminal. -/
def envAll : Env :=
  { dirExists := fun _ => true,
    tree := fun _ => FSTree.node emptyDirEntry [],
    wsRow := 24, wsCol := 80 }

/-- Does an output event refrain from showing a directory total. -/
def evNoDirTotal : OutEvent → Bool
  | .detail _ _ _ dt => dt.isNone
  | _ => true

/-- Does an output event for a directory carry its total (events that are
not directory detail lines pass vacuously). -/
def evDirHasTotal : OutEvent → Bool
  | .detail _ true _ dt => dt.isSome
  | _ => true

/-- An argument that enters the flag branch of parseTargets but matches no
known flag. -/
def isUnknownFlag (a : String) : Bool :=
  decide (a.take 1 = "-") && !(knownFlags.contains a)

/-- An argument that parseTargets treats as a directory: no leading dash
and no wildcard. -/
def isDirToken (a : String) : Bool :=
  !decide (a.take 1 = "-") && !(hasWildcard a)

/-- An argument that parseTargets treats as a pattern: no leading dash and
at least one wildcard character. -/
def isPatToken (a : String) : Bool :=
  !decide (a.take 1 = "-") && hasWildcard a

/-! ## Theorems -/

/-! ### Claim C2: layout decision -/

/-- C2 counterexample: when force_list and force_wide are both set the claim
says the wide view is used because force_wide would be checked first, but
the source condition (not forceList, and then forceWide or the overflow
test) checks forceList first, so the detailed list view is used.  At
forceList = forceWide = true with 0 entries on a 24-row screen the
condition the specification words describe is true while the implemented
condition is false. -/
theorem c2_counterexample :
    claimedMultiColumnCond true true 0 24 = true ∧
      useMultiColumnCond true true 0 24 = false := by
  constructor
  · rfl
  · rfl

/-- C2 amended: multi-column rendering is used iff force_list is not set
and (force_wide is set or the combined entry count exceeds
screenHeight - 3 at C++ types); in particular force_list always forces the
detailed view, even when force_wide is also set, and with neither flag set
the decision is exactly the overflow test. -/
theorem c2_layout_decision (fw : Bool) (n h : Nat) :
    useMultiColumnCond true fw n h = false ∧
      useMultiColumnCond false true n h = true ∧
      useMultiColumnCond false false n h = entryCountExceeds n h := by
  refine ⟨rfl, rfl, rfl⟩

/-! ### Claim C3: unit labels of formatSize -/

/-- C3: the baseUnits table declares "YB" at index 7, but the selection
guard (unitIndex < 7) never reads it: division-count index 7 already takes
the synthesized branch, producing the character after ASCII Z, so the label
sequence runs KB through ZB and then "[B"; "YB" is unreachable.  The last
two conjuncts evaluate formatSize at byte counts with division counts 7
and 8 (the latter is expressible only mathematically: it exceeds the
64-bit uintmax_t). -/
theorem c3_yb_unreachable :
    baseUnits.getD 7 "" = "YB" ∧ unitLabelFor 7 = "[B" ∧
      formatSize (1024 ^ 7) = "1.000 ZB" ∧
      formatSize (1024 ^ 8) = "1.000 [B" := by
  refine ⟨rfl, by decide, ?_, ?_⟩
  · rw [formatSize]
    norm_num [countDivs_step, countDivs_lt]
    rfl
  · rw [formatSize]
    norm_num [countDivs_step, countDivs_lt]
    rfl

/-! ### Claim C8: numeric portion of formatSize -/

/-- C8 counterexample: formatSize at 2048 bytes is "2.000 KB", not the
"2.00 KB" the claim asserts (std::to_string renders six decimals and
substr(0,5) keeps five characters). -/
theorem c8_counterexample : formatSize 2048 ≠ "2.00 KB" := by
  have h : formatSize 2048 = "2.000 KB" := by
    rw [formatSize]
    norm_num [countDivs_step, countDivs_lt]
    rfl
  rw [h]
  decide

/-- C8 amended: the numeric portion is the six-decimal rendering of the
reduced value truncated to its first five characters (not rounded), so
formatSize 2048 = "2.000 KB"; the second conjunct shows truncation rather
than rounding: 5242879 bytes reduce to 4.99999904..., whose five-character
truncation is "4.999" where rounding at that width would give "5.000". -/
theorem c8_truncated_numeric :
    formatSize 2048 = "2.000 KB" ∧ formatSize 5242879 = "4.999 MB" := by
  constructor
  · rw [formatSize]
    norm_num [countDivs_step, countDivs_lt]
    rfl
  · rw [formatSize]
    norm_num [countDivs_step, countDivs_lt]
    rfl

/-! ### Claim C10: ".sh" classification -/

/-- C10: ".sh" appears in both the programming and the text extension
tables, and because categorizeFile consults the programming table first,
every regular file whose lowercased extension is ".sh" is classified
Programming, never Text. -/
theorem c10_sh_programming_wins :
    programmingExtensions.contains ".sh" = true ∧
      textExtensions.contains ".sh" = true ∧
      ∀ e : DirEntry, e.isRegular = true →
        asciiLowerStr (pathExtension e.name) = ".sh" →
        categorizeFile e = FileType.Programming := by
  refine ⟨by decide, by decide, ?_⟩
  intro e hr hx
  have hc : programmingExtensions.contains ".sh" = true := by decide
  rw [categorizeFile, hx, hr]
  simp only [hc, if_true]

/-- C10 witness at the concrete entry run.sh. -/
theorem c10_witness :
    ((⟨"run.sh", false, true, false, 0⟩ : DirEntry).isRegular = true ∧
      asciiLowerStr (pathExtension
        (⟨"run.sh", false, true, false, 0⟩ : DirEntry).name) = ".sh") ∧
      categorizeFile ⟨"run.sh", false, true, false, 0⟩ =
        FileType.Programming :=
  ⟨⟨rfl, by decide⟩,
    c10_sh_programming_wins.2.2 ⟨"run.sh", false, true, false, 0⟩ rfl
      (by decide)⟩

/-! ### Claim C4: the multi-column grid -/

/-- C4 counterexample: for terminal width 10 (below the 18 needed for one
column) numColumns is 0, not the minimum of 1 the claim asserts, and the
numRows expression of displayMultiColumn divides by zero (modelled as
none), so the row computation is not well-defined for every width. -/
theorem c4_counterexample :
    numColumnsOf 10 = 0 ∧ displayMultiColumn ([0] : List Nat) 10 = none := by
  constructor
  · rfl
  · rfl

theorem grid_flatten {α : Type} :
    ∀ (k c : Nat), 0 < c → ∀ (l : List α), l.length ≤ k * c →
      ((List.range k).map (fun r => (l.drop (r * c)).take c)).flatten = l := by
  intro k
  induction k with
  | zero =>
    intro c hc l hl
    simp at hl
    simp [hl]
  | succ k ih =>
    intro c hc l hl
    rw [List.range_succ_eq_map]
    simp only [List.map_cons, List.map_map, List.flatten_cons]
    have hcongr : (List.range k).map
        ((fun r => (l.drop (r * c)).take c) ∘ Nat.succ) =
        (List.range k).map (fun r => ((l.drop c).drop (r * c)).take c) := by
      apply List.map_congr_left
      intro r hr
      simp only [Function.comp]
      rw [List.drop_drop]
      congr 1
      simp [Nat.succ_mul]
      ring_nf
    rw [hcongr]
    rw [Nat.succ_mul] at hl
    rw [ih c hc (l.drop c) (by simp; omega)]
    simp

/-- C4 amended: for terminal widths of at least 18, displayMultiColumn has
numColumns = W / 18 of at least 1, lays the entries out row-major into
ceil(N / (W/18)) rows, and the rows are exactly a partition of the entry
list (so no cell reads an index at or past N); for widths below 18 the
C++ code divides by zero (see the counterexample). -/
theorem c4_grid_partition {α : Type} (entries : List α) (w : Nat)
    (h : 18 ≤ w) :
    ∃ rows, displayMultiColumn entries w = some rows ∧
      rows.length = (entries.length + w / 18 - 1) / (w / 18) ∧
      rows.flatten = entries := by
  have hc : 0 < numColumnsOf w := Nat.div_pos h (by norm_num)
  rw [displayMultiColumn]
  rw [if_neg (Nat.pos_iff_ne_zero.mp hc)]
  refine ⟨_, rfl, ?_, ?_⟩
  · simp [numColumnsOf]
  · apply grid_flatten _ _ hc
    have hm := Nat.div_add_mod (entries.length + numColumnsOf w - 1)
      (numColumnsOf w)
    have hr := Nat.mod_lt (entries.length + numColumnsOf w - 1) hc
    rw [Nat.mul_comm]
    omega

/-- C4 witness: three entries on a width-40 terminal give two columns and
two rows, partitioning the entries. -/
theorem c4_witness :
    18 ≤ 40 ∧
      ∃ rows, displayMultiColumn ([10, 20, 30] : List Nat) 40 = some rows ∧
        rows.length = (([10, 20, 30] : List Nat).length + 40 / 18 - 1) /
          (40 / 18) ∧
        rows.flatten = [10, 20, 30] :=
  ⟨by norm_num, c4_grid_partition [10, 20, 30] 40 (by norm_num)⟩

/-! ### Claim C5: sort order of one directory level -/

theorem dirLE_trans (a b c : FSTree) (h1 : dirLE a b = true)
    (h2 : dirLE b c = true) : dirLE a c = true := by
  simp only [dirLE, decide_eq_true_eq] at *
  exact le_trans h1 h2

theorem dirLE_total (a b : FSTree) : (dirLE a b || dirLE b a) = true := by
  simp only [dirLE, Bool.or_eq_true, decide_eq_true_eq]
  exact le_total _ _

theorem fileLE_trans (a b c : FSTree) (h1 : fileLE a b = true)
    (h2 : fileLE b c = true) : fileLE a c = true := by
  simp only [fileLE, decide_eq_true_eq] at *
  exact le_trans h1 h2

theorem fileLE_total (a b : FSTree) : (fileLE a b || fileLE b a) = true := by
  simp only [fileLE, Bool.or_eq_true, decide_eq_true_eq]
  exact le_total _ _

/-- C5: the rendered order of one directory level is a deterministic
function of the enumerated entries (sortLevel, used by the lister in both
layouts): it is a permutation of the matched entries in which every
directory precedes every file, directories are pairwise in nondecreasing
case-insensitive name order, and files are pairwise nondecreasing in
(category ordinal, case-insensitive name); renderLE spells out exactly
those three clauses.  The relative order of entries with equal keys is not
fixed by the C++ strict-weak comparators, so the order properties are
stated with the nonstrict key comparisons, which any std::sort result
satisfies. -/
theorem c5_sort_order (matched : List FSTree) :
    (sortLevel matched).Perm matched ∧
      (sortLevel matched).Pairwise renderLE := by
  constructor
  · exact ((List.mergeSort_perm _ dirLE).append
      (List.mergeSort_perm _ fileLE)).trans
      (List.filter_append_perm _ matched)
  · unfold sortLevel
    rw [List.pairwise_append]
    refine ⟨?_, ?_, ?_⟩
    · have hs := @List.sorted_mergeSort FSTree dirLE dirLE_trans dirLE_total
        (matched.filter (fun c => c.entry.isDirectory))
      apply hs.imp_of_mem
      intro a b ha hb hle
      have ha2 := (List.mem_filter.mp (List.mem_mergeSort.mp ha)).2
      have hb2 := (List.mem_filter.mp (List.mem_mergeSort.mp hb)).2
      right; left
      refine ⟨ha2, hb2, ?_⟩
      simpa [dirLE, decide_eq_true_eq] using hle
    · have hs := @List.sorted_mergeSort FSTree fileLE fileLE_trans fileLE_total
        (matched.filter (fun c => !c.entry.isDirectory))
      apply hs.imp_of_mem
      intro a b ha hb hle
      have ha2 := (List.mem_filter.mp (List.mem_mergeSort.mp ha)).2
      have hb2 := (List.mem_filter.mp (List.mem_mergeSort.mp hb)).2
      right; right
      refine ⟨by simpa using ha2, by simpa using hb2, ?_⟩
      have hk : fileKey a ≤ fileKey b := by
        simpa [fileLE, decide_eq_true_eq] using hle
      rw [fileKey, fileKey, Prod.Lex.le_iff] at hk
      exact hk
    · intro a ha b hb
      have ha2 := (List.mem_filter.mp (List.mem_mergeSort.mp ha)).2
      have hb2 := (List.mem_filter.mp (List.mem_mergeSort.mp hb)).2
      left
      exact ⟨ha2, by simpa using hb2⟩

/-! ### Claim C6: directory totals -/

theorem FSTree.ind (motive : FSTree → Prop)
    (h : ∀ e cs, (∀ c ∈ cs, motive c) → motive (FSTree.node e cs)) :
    ∀ t, motive t := by
  intro t
  match t with
  | .node e cs => exact h e cs (fun c hc => FSTree.ind motive h c)
termination_by t => sizeOf t
decreasing_by
  have := List.sizeOf_lt_of_mem hc
  simp
  omega

theorem attach_map_sum {α : Type} (l : List α) (f : α → Nat) :
    (l.attach.map (fun x => f x.1)).sum = (l.map f).sum :=
  congrArg List.sum (List.attach_map_val l f)

theorem lister_recursive_sizeShown (pattern : String)
    (showTotal fl fw : Bool) (hgt wid : Nat) :
    ∀ t path,
      (lister t pattern true showTotal fl fw hgt wid path).1.sizeShown =
        visitedFilesSum t pattern true := by
  intro t
  refine FSTree.ind (motive := fun t => ∀ path,
    (lister t pattern true showTotal fl fw hgt wid path).1.sizeShown =
      visitedFilesSum t pattern true) ?_ t
  intro e cs ih path
  rw [lister, visitedFilesSum]
  simp only [Bool.not_true, Bool.and_false, if_false, if_true, List.map_map,
    Function.comp_def, Bool.false_eq_true, add_zero]
  rw [attach_map_sum _ (fun x => (lister x pattern true showTotal fl fw hgt
        wid (path ++ "/" ++ x.entry.name)).1.sizeShown),
    attach_map_sum _ (fun c => visitedFilesSum c pattern true)]
  rw [((List.mergeSort_perm (List.filter (fun c => c.entry.isDirectory)
    (List.filter (fun c => entryMatches pattern c.entry.name) cs)) dirLE).map
      (fun x => (lister x pattern true showTotal fl fw hgt wid
        (path ++ "/" ++ x.entry.name)).1.sizeShown)).sum_eq]
  congr 1
  refine congrArg List.sum (List.map_congr_left ?_)
  intro a ha
  exact ih a (List.mem_of_mem_filter (List.mem_of_mem_filter ha)) _

theorem lister_recursive_no_total (pattern : String)
    (showTotal fl fw : Bool) (hgt wid : Nat) :
    ∀ t path,
      ((lister t pattern true showTotal fl fw hgt wid path).2.all
        evNoDirTotal) = true := by
  intro t
  refine FSTree.ind (motive := fun t => ∀ path,
    ((lister t pattern true showTotal fl fw hgt wid path).2.all
      evNoDirTotal) = true) ?_ t
  intro e cs ih path
  rw [lister]
  simp only [Bool.not_true, Bool.and_false, if_false, if_true, List.map_map,
    Function.comp_def, Bool.false_eq_true, ite_false]
  rw [List.all_eq_true]
  intro ev hev
  rw [List.mem_append] at hev
  rcases hev with hl | hr
  · rcases Decidable.em (useMultiColumnCond fl fw _ hgt = true) with hcond |
      hcond
    · rw [if_pos hcond] at hl
      simp at hl
      rw [hl]
      rfl
    · rw [if_neg hcond] at hl
      rw [List.mem_map] at hl
      obtain ⟨c, hc, rfl⟩ := hl
      rfl
  · rw [List.mem_flatten] at hr
    obtain ⟨l, hlmem, hevl⟩ := hr
    rw [List.mem_map] at hlmem
    obtain ⟨d, hd, rfl⟩ := hlmem
    rcases List.mem_cons.mp hevl with rfl | hin
    · rfl
    · have hmem : d.1 ∈ cs :=
        List.mem_of_mem_filter (List.mem_of_mem_filter
          (List.mem_mergeSort.mp d.2))
      exact List.all_eq_true.mp (ih d.1 hmem _) ev hin

/-- C6: at every recursion depth, a directory child's recursive total is
computed and added to the displayed-size total exactly when show_totals is
set and recursive is not: with recursive set the accumulated size is the
plain sum of the visited matched files (first conjunct, whatever
show_totals is) and no printed entry carries a directory total (fourth
conjunct); with show_totals and not recursive the accumulated size is the
file sum plus the recursive size of every matched directory child (second
conjunct) and every directory detail line carries its total (sixth
conjunct); with neither, the file sum alone (third conjunct) and no totals
are printed (fifth conjunct).  Nested sizes are never double-counted: in
the recursive case each file contributes at its own level only
(visitedFilesSum). -/
theorem c6_directory_totals (pattern : String) (showTotal fl fw : Bool)
    (hgt wid : Nat) (t : FSTree) (path : String) :
    (lister t pattern true showTotal fl fw hgt wid path).1.sizeShown =
        visitedFilesSum t pattern true ∧
      (lister t pattern false true fl fw hgt wid path).1.sizeShown =
        visitedFilesSum t pattern false + matchedDirCalcSum t pattern ∧
      (lister t pattern false false fl fw hgt wid path).1.sizeShown =
        visitedFilesSum t pattern false ∧
      ((lister t pattern true showTotal fl fw hgt wid path).2.all
        evNoDirTotal) = true ∧
      ((lister t pattern false false fl fw hgt wid path).2.all
        evNoDirTotal) = true ∧
      ((lister t pattern false true fl fw hgt wid path).2.all
        evDirHasTotal) = true := by
  refine ⟨lister_recursive_sizeShown pattern showTotal fl fw hgt wid t path,
    ?_, ?_, lister_recursive_no_total pattern showTotal fl fw hgt wid t path,
    ?_, ?_⟩
  · cases t with
    | node e cs =>
      rw [lister, visitedFilesSum, matchedDirCalcSum]
      simp [FSTree.children]
  · cases t with
    | node e cs =>
      rw [lister, visitedFilesSum]
      simp
  · cases t with
    | node e cs =>
      rw [lister]
      simp only [Bool.not_false, Bool.and_false, Bool.and_true, if_false,
        if_true, Bool.false_eq_true, ite_false, List.map_map,
        Function.comp_def]
      rw [List.all_eq_true]
      intro ev hev
      rw [List.mem_append] at hev
      rcases hev with hl | hr
      · rcases Decidable.em (useMultiColumnCond fl fw _ hgt = true) with
          hcond | hcond
        · rw [if_pos hcond] at hl
          simp at hl
          rw [hl]
          rfl
        · rw [if_neg hcond] at hl
          rw [List.mem_map] at hl
          obtain ⟨c, hc, rfl⟩ := hl
          cases hdir : c.entry.isDirectory <;> simp [evNoDirTotal, hdir]
      · simp at hr
  · cases t with
    | node e cs =>
      rw [lister]
      simp only [Bool.not_false, Bool.and_true, if_false, if_true,
        Bool.false_eq_true, ite_false, List.map_map, Function.comp_def]
      rw [List.all_eq_true]
      intro ev hev
      rw [List.mem_append] at hev
      rcases hev with hl | hr
      · rcases Decidable.em (useMultiColumnCond fl fw _ hgt = true) with
          hcond | hcond
        · rw [if_pos hcond] at hl
          simp at hl
          rw [hl]
          rfl
        · rw [if_neg hcond] at hl
          rw [List.mem_map] at hl
          obtain ⟨c, hc, rfl⟩ := hl
          cases hdir : c.entry.isDirectory <;> simp [evDirHasTotal, hdir]
      · simp at hr

/-! ### Claim C7: the pause flag -/

/-- C7: the -p (long form --pause) flag has no observable effect.  main decodes the
flag into screenPause but the rest of the program never reads it (and
getKeyStroke is never called), so the listing step is literally constant
in the flag (first conjunct), and a full invocation with -p produces the
identical result to the same invocation without it (second conjunct,
stated at argument level; -l is included so that both argument lists are
nonempty and traverse the same directory validation). -/
theorem c7_pause_flag_ignored :
    (∀ (env : Env) (dir pattern : String) (r t l w : Bool),
        runListing env dir pattern r t l w true =
          runListing env dir pattern r t l w false) ∧
      ∀ env : Env,
        programOutcome env ["-p", "-l"] = programOutcome env ["-l"] := by
  constructor
  · intro env dir pattern r t l w
    rfl
  · intro env
    have h1 : parseLoop initParseSt ["-p", "-l"] =
        .ok ⟨".", "*", ["-p", "-l"]⟩ := rfl
    have h2 : parseLoop initParseSt ["-l"] = .ok ⟨".", "*", ["-l"]⟩ := rfl
    unfold programOutcome parseTargets
    rw [if_neg (by decide), if_neg (by decide), h1, h2]
    cases hde : env.dirExists "."
    · simp [hde]
    · simp [hde, flagsLoop, runListing]

/-! ### Claim C1: the help flag -/

theorem flagsLoop_help (env : Env) (dir pattern : String) :
    ∀ (fl : List String) (r t l w p : Bool),
      ("-h" ∈ fl ∨ "--help" ∈ fl) →
      flagsLoop env dir pattern r t l w p fl = .helpShown := by
  intro fl
  induction fl with
  | nil =>
    intro r t l w p hmem
    rcases hmem with hm | hm <;> simp at hm
  | cons f rest ih =>
    intro r t l w p hmem
    by_cases hf : f = "-h" ∨ f = "--help"
    · rcases hf with rfl | rfl <;> rfl
    · have hmem2 : "-h" ∈ rest ∨ "--help" ∈ rest := by
        rcases hmem with hm | hm
        · rcases List.mem_cons.mp hm with hh | hh
          · exact absurd (Or.inl hh.symm) hf
          · exact Or.inl hh
        · rcases List.mem_cons.mp hm with hh | hh
          · exact absurd (Or.inr hh.symm) hf
          · exact Or.inr hh
      rw [flagsLoop]
      repeat' split
      all_goals first
        | exact ih _ _ _ _ _ hmem2
        | (exfalso
           rename_i hcond
           simp at hcond
           exact hf (by tauto))

/-- C1 counterexample: the invocation with arguments -h and -z exits 1
with the unknown-flag usage error and never prints the About banner: the
parse loop aborts on the unknown flag before main ever examines the
collected flags, so -h does not short-circuit other processing. -/
theorem c1_counterexample :
    programOutcome envAll ["-h", "-z"] = .usageError "Unknown flag: -z" ∧
      exitCodeOf (programOutcome envAll ["-h", "-z"]) = 1 ∧
      strContainsSub (outputOf (programOutcome envAll ["-h", "-z"]))
        "About ColorDir" = false := by
  have h : programOutcome envAll ["-h", "-z"] =
      .usageError "Unknown flag: -z" := rfl
  refine ⟨h, by rw [h]; rfl, by rw [h]; decide⟩

set_option maxRecDepth 400000 in
/-- C1 amended: -h (long form --help) prints the static About banner (whose text
contains the literal substring "About ColorDir") and the program exits 0,
provided the whole command line parses without a usage error and the
target directory exists (that is, parseTargets returns successfully);
when any other argument is a usage error, or the target directory does
not exist, that error wins even though -h is present (see the
counterexample). -/
theorem c1_help_short_circuit (env : Env) (args : List String)
    (st : ParseSt) (hok : parseTargets env args = .ok st)
    (hh : "-h" ∈ st.flags ∨ "--help" ∈ st.flags) :
    programOutcome env args = .helpShown ∧
      exitCodeOf (programOutcome env args) = 0 ∧
      strContainsSub (outputOf (programOutcome env args))
        "About ColorDir" = true := by
  have hmain : programOutcome env args = .helpShown := by
    unfold programOutcome
    rw [hok]
    exact flagsLoop_help env st.dir st.pattern st.flags false false false
      false false hh
  refine ⟨hmain, by rw [hmain]; rfl, ?_⟩
  rw [hmain]
  decide

/-- C1 witness: the plain invocation with only -h shows the help screen. -/
theorem c1_witness :
    (parseTargets envAll ["-h"] = .ok ⟨".", "*", ["-h"]⟩ ∧
      ("-h" ∈ (⟨".", "*", ["-h"]⟩ : ParseSt).flags ∨
        "--help" ∈ (⟨".", "*", ["-h"]⟩ : ParseSt).flags)) ∧
      programOutcome envAll ["-h"] = .helpShown ∧
        exitCodeOf (programOutcome envAll ["-h"]) = 0 ∧
        strContainsSub (outputOf (programOutcome envAll ["-h"]))
          "About ColorDir" = true :=
  ⟨⟨rfl, Or.inl (by simp)⟩,
    c1_help_short_circuit envAll ["-h"] ⟨".", "*", ["-h"]⟩ rfl
      (Or.inl (by simp))⟩

/-! ### Claim C9: usage errors -/

theorem parseLoop_error_of_unknown :
    ∀ (args : List String) (st : ParseSt),
      (∃ a ∈ args, isUnknownFlag a = true) →
      ∃ m, parseLoop st args = .error m := by
  intro args
  induction args with
  | nil =>
    intro st h
    obtain ⟨a, ha, _⟩ := h
    simp at ha
  | cons x rest ih =>
    intro st h
    obtain ⟨a, ha, hu⟩ := h
    rw [parseLoop]
    cases hs : stepArg st x with
    | error m => exact ⟨m, rfl⟩
    | ok st2 =>
      rcases List.mem_cons.mp ha with rfl | hrest
      · exfalso
        unfold stepArg at hs
        unfold isUnknownFlag at hu
        rw [Bool.and_eq_true] at hu
        obtain ⟨h1, h2⟩ := hu
        rw [decide_eq_true_eq] at h1
        rw [if_pos h1] at hs
        rw [Bool.not_eq_true'] at h2
        rw [h2] at hs
        simp at hs
      · exact ih st2 ⟨a, hrest, hu⟩

theorem unknown_flag_errors (env : Env) (args : List String)
    (h : ∃ a ∈ args, isUnknownFlag a = true) :
    ∃ m, programOutcome env args = .usageError m ∧
      exitCodeOf (programOutcome env args) = 1 ∧
      outputOf (programOutcome env args) = errorOutput m := by
  obtain ⟨m, hm⟩ := parseLoop_error_of_unknown args initParseSt h
  have hne : args ≠ [] := by
    rintro rfl
    obtain ⟨a, ha, _⟩ := h
    simp at ha
  have hout : programOutcome env args = .usageError m := by
    unfold programOutcome parseTargets
    rw [if_neg hne, hm]
  exact ⟨m, hout, by rw [hout]; rfl, by rw [hout]; rfl⟩

theorem second_dir_errors (env : Env) (a b : String)
    (ha : isDirToken a = true) (hne : a ≠ ".") (hb : isDirToken b = true) :
    programOutcome env [a, b] =
      .usageError "Multiple directories are not allowed." := by
  unfold isDirToken at ha hb
  rw [Bool.and_eq_true, Bool.not_eq_true', Bool.not_eq_true'] at ha hb
  obtain ⟨ha1, ha2⟩ := ha
  obtain ⟨hb1, hb2⟩ := hb
  rw [decide_eq_false_iff_not] at ha1 hb1
  have hs1 : stepArg initParseSt a = .ok ⟨a, "*", []⟩ := by
    unfold stepArg initParseSt
    rw [if_neg ha1, ha2]
    simp
  have hs2 : stepArg ⟨a, "*", []⟩ b =
      .error "Multiple directories are not allowed." := by
    unfold stepArg
    rw [if_neg hb1, hb2]
    simp [hne]
  have hl : parseLoop initParseSt [a, b] =
      .error "Multiple directories are not allowed." := by
    simp only [parseLoop, hs1, hs2]
  unfold programOutcome parseTargets
  rw [if_neg (by simp), hl]

theorem second_pattern_errors (env : Env) (a b : String)
    (ha : isPatToken a = true) (hne : a ≠ "*") (hb : isPatToken b = true) :
    programOutcome env [a, b] =
      .usageError "Multiple patterns are not allowed." := by
  unfold isPatToken at ha hb
  rw [Bool.and_eq_true, Bool.not_eq_true'] at ha hb
  obtain ⟨ha1, ha2⟩ := ha
  obtain ⟨hb1, hb2⟩ := hb
  rw [decide_eq_false_iff_not] at ha1 hb1
  have hs1 : stepArg initParseSt a = .ok ⟨".", a, []⟩ := by
    unfold stepArg initParseSt
    rw [if_neg ha1, ha2]
    simp
  have hs2 : stepArg ⟨".", a, []⟩ b =
      .error "Multiple patterns are not allowed." := by
    unfold stepArg
    rw [if_neg hb1, hb2]
    simp [hne]
  have hl : parseLoop initParseSt [a, b] =
      .error "Multiple patterns are not allowed." := by
    simp only [parseLoop, hs1, hs2]
  unfold programOutcome parseTargets
  rw [if_neg (by simp), hl]

theorem missing_dir_errors (env : Env) (a : String)
    (ha : isDirToken a = true) (hex : env.dirExists a = false) :
    programOutcome env [a] =
      .usageError ("Directory does not exist: " ++ a) := by
  unfold isDirToken at ha
  rw [Bool.and_eq_true, Bool.not_eq_true', Bool.not_eq_true'] at ha
  obtain ⟨ha1, ha2⟩ := ha
  rw [decide_eq_false_iff_not] at ha1
  have hs1 : stepArg initParseSt a = .ok ⟨a, "*", []⟩ := by
    unfold stepArg initParseSt
    rw [if_neg ha1, ha2]
    simp
  have hl : parseLoop initParseSt [a] = .ok ⟨a, "*", []⟩ := by
    simp only [parseLoop, hs1]
  unfold programOutcome parseTargets
  rw [if_neg (by simp), hl]
  simp [hex]

/-- C9 amended: every invocation containing an unknown flag produces a
usage error: exit status 1 and output exactly the showError line (whose
"Error: " prefix is printed in red, the rest in the default color,
followed by ". Try: c -h").  A second directory argument is fatal exactly
when an earlier argument already moved the directory slot off its default
"." (second conjunct; a first directory argument equal to "." leaves the
slot at its default, see the counterexample), and symmetrically for a
second pattern when an earlier pattern moved the slot off "*" (third
conjunct).  A nonexistent target directory is fatal (fourth conjunct).
For the unknown flag -z the message contains "Unknown flag: -z" (last two
conjuncts). -/
theorem c9_usage_errors :
    (∀ (env : Env) (args : List String),
        (∃ a ∈ args, isUnknownFlag a = true) →
        ∃ m, programOutcome env args = .usageError m ∧
          exitCodeOf (programOutcome env args) = 1 ∧
          outputOf (programOutcome env args) = errorOutput m) ∧
      (∀ (env : Env) (a b : String), isDirToken a = true → a ≠ "." →
        isDirToken b = true →
        programOutcome env [a, b] =
          .usageError "Multiple directories are not allowed.") ∧
      (∀ (env : Env) (a b : String), isPatToken a = true → a ≠ "*" →
        isPatToken b = true →
        programOutcome env [a, b] =
          .usageError "Multiple patterns are not allowed.") ∧
      (∀ (env : Env) (a : String), isDirToken a = true →
        env.dirExists a = false →
        programOutcome env [a] =
          .usageError ("Directory does not exist: " ++ a)) ∧
      programOutcome envAll ["-z"] = .usageError "Unknown flag: -z" ∧
      strContainsSub (outputOf (programOutcome envAll ["-z"]))
        "Unknown flag: -z" = true := by
  refine ⟨unknown_flag_errors, second_dir_errors, second_pattern_errors,
    missing_dir_errors, rfl, by decide⟩

/-- C9 witness: the invocation with the single unknown flag -z errors. -/
theorem c9_witness :
    (∃ a ∈ (["-z"] : List String), isUnknownFlag a = true) ∧
      ∃ m, programOutcome envAll ["-z"] = .usageError m ∧
        exitCodeOf (programOutcome envAll ["-z"]) = 1 ∧
        outputOf (programOutcome envAll ["-z"]) = errorOutput m :=
  ⟨⟨"-z", by simp, by decide⟩,
    c9_usage_errors.1 envAll ["-z"] ⟨"-z", by simp, by decide⟩⟩

theorem lister_empty :
    lister (FSTree.node emptyDirEntry []) "*" false false false false 24 80
      "sub" = ({ files := 0, dirs := 0, sizeShown := 0 }, []) := by
  rw [lister]
  norm_num [useMultiColumnCond, entryCountExceeds, intToSizeT]

/-- C9 counterexample: the invocation with the two directory arguments
"." and "sub" is not a usage error: the first argument equals the default
directory and leaves the slot unchanged, so the second is accepted, the
(empty) directory is listed, and the program exits 0, contradicting the
claim that a second directory argument always exits 1. -/
theorem c9_counterexample :
    programOutcome envAll [".", "sub"] =
        .ran [] { files := 0, dirs := 0, sizeShown := 0 } ∧
      exitCodeOf (programOutcome envAll [".", "sub"]) = 0 := by
  have hs1 : stepArg initParseSt "." = .ok ⟨".", "*", []⟩ := by
    unfold stepArg initParseSt
    rw [if_neg (show ¬ (".".take 1 = "-") by decide)]
    rw [if_neg (show ¬ (hasWildcard "." = true) by decide)]
    rw [if_pos rfl]
  have hs2 : stepArg ⟨".", "*", []⟩ "sub" = .ok ⟨"sub", "*", []⟩ := by
    unfold stepArg
    rw [if_neg (show ¬ ("sub".take 1 = "-") by decide)]
    rw [if_neg (show ¬ (hasWildcard "sub" = true) by decide)]
    rw [if_pos rfl]
  have hp : parseLoop initParseSt [".", "sub"] = .ok ⟨"sub", "*", []⟩ := by
    simp only [parseLoop, hs1, hs2]
  have h : programOutcome envAll [".", "sub"] =
      .ran [] { files := 0, dirs := 0, sizeShown := 0 } := by
    unfold programOutcome parseTargets
    rw [if_neg (by decide), hp]
    show flagsLoop envAll "sub" "*" false false false false false [] = _
    rw [flagsLoop]
    unfold runListing
    rw [show envAll.tree "sub" = FSTree.node emptyDirEntry [] from rfl]
    rw [show screenHeightOf envAll = 24 from rfl]
    rw [show screenWidthOf envAll = 80 from rfl]
    rw [lister_empty]
  exact ⟨h, by rw [h]; rfl⟩

end ColorDir
